import Mathlib

/-!
Verification of the exercise_dashboard connector handlers
(`cloud_functions/fitbit/main.py`, `cloud_functions/googlefit/main.py`,
`cloud_functions/myfitnesspal/main.py`) against the specification of the
shared cursor/token protocol.

Modelling conventions:
* A Python calendar date (`datetime.date`) is the `Date` structure
  (year/month/day); an ISO-8601 date string is modelled by its date value
  (the two are in bijection), so a value the Python code stores as
  `cursor_date.isoformat()` is stored here as `SVal.date d`.
* `cursor_date + dt.timedelta(days=1)` is `Date.nextDay` (the Gregorian
  successor), `cursor_date - dt.timedelta(days=1)` is `Date.prevDay`, and
  Python's date comparison is the lexicographic `Date.blt`.
* JSON response bodies are the `Json` inductive; Python's `d[k]` lookup is
  `Json.get`, which returns `none` exactly where Python raises `KeyError`.
* A Python dict used as the persisted state blob is an insertion-ordered
  association list `StateDict`; `dget`/`dset` are item lookup and
  assignment with Python's semantics (assignment updates in place when the
  key exists, otherwise appends).
* Every HTTP call is an oracle input: the environment structure of an
  invocation carries the `HttpResp` (status code plus decoded JSON body)
  that each endpoint answers during this invocation.  `dt.date.today()` is
  an explicit `today` parameter.
* Uncaught Python exceptions are `Except.error` values: the cursor-guard
  `ValueError` is `invariantViolation`; the `ValueError` raised on a
  non-200 OAuth refresh is `authRefreshFailure`; a `KeyError`/`TypeError`
  while reshaping a response body (including the refresh-token body) is
  `malformedResponse`; a `KeyError` on the state dict is `keyError`; a
  `dateutil.parser` failure on a non-date cursor value is `badCursor`.
-/

set_option autoImplicit false

mutual
/-- Decoded JSON values, as produced by `response.json()`.  Arrays and
objects carry their own cons-list types so that decidable equality is
derivable. -/
inductive Json where
  | null : Json
  | bool (b : Bool) : Json
  | str (s : String) : Json
  | num (n : Int) : Json
  | arr (elems : JsonList) : Json
  | obj (fields : JsonObj) : Json
deriving DecidableEq, Repr

/-- A JSON array's elements. -/
inductive JsonList where
  | nil : JsonList
  | cons (head : Json) (tail : JsonList) : JsonList
deriving DecidableEq, Repr

/-- A JSON object's fields, in insertion order. -/
inductive JsonObj where
  | nil : JsonObj
  | cons (key : String) (val : Json) (tail : JsonObj) : JsonObj
deriving DecidableEq, Repr
end

/-- Look up a key among a JSON object's fields (in a Python dict every key
occurs at most once). -/
def JsonObj.find? (fields : JsonObj) (k : String) : Option Json :=
  match fields with
  | .nil => none
  | .cons key v tail => if key == k then some v else tail.find? k

/-- Length of a JSON array. -/
def JsonList.length (elems : JsonList) : Nat :=
  match elems with
  | .nil => 0
  | .cons _ tail => tail.length + 1

/-- The elements of a JSON array, as a Lean list. -/
def JsonList.toList (elems : JsonList) : List Json :=
  match elems with
  | .nil => []
  | .cons head tail => head :: tail.toList

/-- Python's `body[k]` on a decoded JSON value: a lookup that succeeds only
on an object that has the key. -/
def Json.get (j : Json) (k : String) : Option Json :=
  match j with
  | .obj fields => fields.find? k
  | _ => none

/-- A Python `datetime.date`: year, month, day. -/
structure Date where
  year : Nat
  month : Nat
  day : Nat
deriving DecidableEq, Repr

/-- Python date comparison `a < b` (lexicographic on year, month, day). -/
def Date.blt (a b : Date) : Bool :=
  decide (a.year < b.year ∨ (a.year = b.year ∧
    (a.month < b.month ∨ (a.month = b.month ∧ a.day < b.day))))

/-- Gregorian leap-year test, as in Python's `calendar.isleap`. -/
def Date.isLeap (y : Nat) : Bool :=
  decide (y % 4 = 0 ∧ (y % 100 ≠ 0 ∨ y % 400 = 0))

/-- Number of days in a Gregorian month. -/
def Date.daysInMonth (y m : Nat) : Nat :=
  if m = 2 then (if Date.isLeap y then 29 else 28)
  else if m = 4 ∨ m = 6 ∨ m = 9 ∨ m = 11 then 30
  else 31

/-- `d + dt.timedelta(days=1)`: the next calendar day. -/
def Date.nextDay (d : Date) : Date :=
  if d.day < Date.daysInMonth d.year d.month then ⟨d.year, d.month, d.day + 1⟩
  else if d.month < 12 then ⟨d.year, d.month + 1, 1⟩
  else ⟨d.year + 1, 1, 1⟩

/-- `d - dt.timedelta(days=1)`: the previous calendar day. -/
def Date.prevDay (d : Date) : Date :=
  if 1 < d.day then ⟨d.year, d.month, d.day - 1⟩
  else if 1 < d.month then ⟨d.year, d.month - 1, Date.daysInMonth d.year (d.month - 1)⟩
  else ⟨d.year - 1, 12, 31⟩

/-- A value stored in the persisted state dict.  The Python code stores
strings throughout; an ISO date string is modelled by its date value and
every other value by the JSON value it round-trips through. -/
inductive SVal where
  | date (d : Date) : SVal
  | json (j : Json) : SVal
deriving DecidableEq, Repr

/-- The persisted state blob: a Python dict from key to value, modelled as
an insertion-ordered association list with unique keys. -/
abbrev StateDict := List (String × SVal)

/-- Python `k in d` / `d[k]` combined: look up key `k`. -/
def dget (d : StateDict) (k : String) : Option SVal :=
  (d.find? (fun p => p.1 == k)).map Prod.snd

/-- Python `d[k] = v`: update in place when the key exists, else append. -/
def dset (d : StateDict) (k : String) (v : SVal) : StateDict :=
  if (d.find? (fun p => p.1 == k)).isSome then
    d.map (fun p => if p.1 == k then (k, v) else p)
  else d ++ [(k, v)]

instance {ε α : Type} [DecidableEq ε] [DecidableEq α] :
    DecidableEq (Except ε α) := fun a b =>
  match a, b with
  | .ok x, .ok y =>
    if h : x = y then .isTrue (congrArg Except.ok h)
    else .isFalse (fun hh => h (Except.ok.inj hh))
  | .error x, .error y =>
    if h : x = y then .isTrue (congrArg Except.error h)
    else .isFalse (fun hh => h (Except.error.inj hh))
  | .ok _, .error _ => .isFalse (fun hh => Except.noConfusion hh)
  | .error _, .ok _ => .isFalse (fun hh => Except.noConfusion hh)

/-- Errors an invocation can surface to the caller (uncaught exceptions in
the Python handlers), named after the specification's error taxonomy. -/
inductive HandlerError where
  | invariantViolation : HandlerError
  | authRefreshFailure : HandlerError
  | malformedResponse : HandlerError
  | keyError : HandlerError
  | badCursor : HandlerError
deriving DecidableEq, Repr

/-- An HTTP response as the handlers consume it: status code and decoded
JSON body. -/
structure HttpResp where
  status : Nat
  body : Json
deriving DecidableEq, Repr

/-- Evaluate a fallible function left to right over a list, propagating the
first error — Python's list comprehension under exceptions. -/
def mapExcept {α β ε : Type} (f : α → Except ε β) : List α → Except ε (List β)
  | [] => .ok []
  | x :: xs =>
    match f x with
    | .error e => .error e
    | .ok y =>
      match mapExcept f xs with
      | .error e => .error e
      | .ok ys => .ok (y :: ys)

/-! ## Fitbit connector (`cloud_functions/fitbit/main.py`) -/

/-- The `secrets` node of a Fitbit request: initial cursor and token pair
(the OAuth client id/secret also live here but only feed the HTTP
Authorization header, which the response oracle absorbs). -/
structure FitbitSecrets where
  cursor : Date
  access_token : Json
  refresh_token : Json
deriving DecidableEq, Repr

/-- A Fitbit invocation request: persisted `state` plus `secrets`. -/
structure FitbitRequest where
  state : StateDict
  secrets : FitbitSecrets
deriving DecidableEq, Repr

/-- The network during one Fitbit invocation: the responses of the daily
activity endpoint, the daily weight-log endpoint, and the OAuth token
endpoint. -/
structure FitbitEnv where
  activity : HttpResp
  weight : HttpResp
  refresh : HttpResp
deriving DecidableEq, Repr

/-- One row of the `activity` table (main.py lines 143-154): the named
subset of the activity summary object. -/
structure ActivityRecord where
  date : Date
  steps : Json
  caloriesBMR : Json
  caloriesOut : Json
  activityCalories : Json
  marginalCalories : Json
  sedentaryMinutes : Json
  lightlyActiveMinutes : Json
  fairlyActiveMinutes : Json
  veryActiveMinutes : Json
deriving DecidableEq, Repr

/-- One row of the `weight` table (main.py lines 156-159); `weight` is
`Json.null` when the day has no weight entries. -/
structure WeightRecord where
  date : Date
  weight : Json
deriving DecidableEq, Repr

/-- The `insert` node of a successful Fitbit response. -/
structure FitbitInsert where
  activity : List ActivityRecord
  weight : List WeightRecord
deriving DecidableEq, Repr

/-- The `schema` node of a successful Fitbit response. -/
structure FitbitSchema where
  activity_pk : List String
  weight_pk : List String
deriving DecidableEq, Repr

/-- A Fitbit handler response.  `insert`/`schema`/`returnCause` are keys
that only some branches put in the response dict, hence `Option`. -/
structure FitbitResponse where
  state : StateDict
  insert : Option FitbitInsert
  schema : Option FitbitSchema
  hasMore : Bool
  returnCause : Option String
deriving DecidableEq, Repr

/-- `refresh_fitbit_token` (main.py lines 8-50): POST to the OAuth token
endpoint; raise on a non-200 answer, otherwise hand back the new token
pair (`access_token`, `refresh_token`) read from the body. -/
def refresh_fitbit_token (resp : HttpResp) : Except HandlerError (Json × Json) :=
  if resp.status ≠ 200 then .error .authRefreshFailure
  else
    match resp.body.get "access_token", resp.body.get "refresh_token" with
    | some a, some r => .ok (a, r)
    | _, _ => .error .malformedResponse

/-- State seeding (main.py lines 75-80): copy `cursor`, `access_token`,
`refresh_token` from `secrets` into `state` for each key not yet there. -/
def fitbit_seed (req : FitbitRequest) : StateDict :=
  let s1 := if (dget req.state "cursor").isNone
    then dset req.state "cursor" (.date req.secrets.cursor) else req.state
  let s2 := if (dget s1 "access_token").isNone
    then dset s1 "access_token" (.json req.secrets.access_token) else s1
  if (dget s2 "refresh_token").isNone
    then dset s2 "refresh_token" (.json req.secrets.refresh_token) else s2

/-- Reshaping of the activity body (main.py lines 143-154): every field is
a lookup `activity_json['summary'][name]`; a missing key is an uncaught
`KeyError`. -/
def parse_activity (d : Date) (body : Json) : Except HandlerError ActivityRecord :=
  match body.get "summary" with
  | none => .error .malformedResponse
  | some s =>
    match s.get "steps", s.get "caloriesBMR", s.get "caloriesOut",
        s.get "activityCalories", s.get "marginalCalories",
        s.get "sedentaryMinutes", s.get "lightlyActiveMinutes",
        s.get "fairlyActiveMinutes", s.get "veryActiveMinutes" with
    | some a, some b, some c, some e, some f, some g, some h, some i, some j =>
      .ok ⟨d, a, b, c, e, f, g, h, i, j⟩
    | _, _, _, _, _, _, _, _, _ => .error .malformedResponse

/-- Reshaping of the weight body (main.py lines 156-159):
`weight_json['weight'][0]['weight'] if len(weight_json['weight']) > 0 else
None`.  A body whose `weight` value is not a list raises `TypeError` in
Python; missing keys raise `KeyError`; both are `malformedResponse`. -/
def parse_weight (d : Date) (body : Json) : Except HandlerError WeightRecord :=
  match body.get "weight" with
  | some (.arr .nil) => .ok ⟨d, .null⟩
  | some (.arr (.cons e _)) =>
    match e.get "weight" with
    | some v => .ok ⟨d, v⟩
    | none => .error .malformedResponse
  | _ => .error .malformedResponse

/-- `handler` (main.py lines 53-181): seed the state, guard the cursor,
short-circuit when caught up, fetch activity and weight, branch on 401
then 429, otherwise reshape and advance the cursor by one day.  Note that
the success branch (lines 161-181) writes `returnCause` INSIDE the state
dict. -/
def fitbit_handler (today : Date) (req : FitbitRequest) (env : FitbitEnv) :
    Except HandlerError FitbitResponse :=
  let st := fitbit_seed req
  match dget st "cursor" with
  | some (.date cursor_date) =>
    if Date.blt today cursor_date then .error .invariantViolation
    else if cursor_date = today then
      .ok { state := st, insert := none, schema := none, hasMore := false,
            returnCause := some "Cursor date not complete yet" }
    else if env.activity.status = 401 ∨ env.weight.status = 401 then
      match refresh_fitbit_token env.refresh with
      | .error e => .error e
      | .ok (a, r) =>
        .ok { state := [("cursor", .date cursor_date),
                        ("access_token", .json a),
                        ("refresh_token", .json r)],
              insert := none, schema := none, hasMore := true,
              returnCause := some "OAuth token required refresh" }
    else if env.activity.status = 429 ∨ env.weight.status = 429 then
      .ok { state := st, insert := none, schema := none, hasMore := false,
            returnCause := some "Hit rate limit" }
    else
      match parse_activity cursor_date env.activity.body,
          parse_weight cursor_date env.weight.body with
      | .ok act, .ok wt =>
        match dget st "access_token", dget st "refresh_token" with
        | some atok, some rtok =>
          .ok { state := [("cursor", .date cursor_date.nextDay),
                          ("access_token", atok),
                          ("refresh_token", rtok),
                          ("returnCause", .json (.str "Successfully retrieved data"))],
                insert := some { activity := [act], weight := [wt] },
                schema := some { activity_pk := ["date"], weight_pk := ["date"] },
                hasMore := true,
                returnCause := none }
        | _, _ => .error .keyError
      | .error e, _ => .error e
      | _, .error e => .error e
  | some (.json _) => .error .badCursor
  | none => .error .keyError

/-! ## Google Fit connector (`cloud_functions/googlefit/main.py`) -/

/-- The `secrets` node of a Google Fit request.  The refresh token lives in
`secrets` (never in the state); the client id/secret, like the hardcoded
America/Chicago window bounds of the sessions request, only shape the HTTP
call, which the response oracle absorbs. -/
structure GfitSecrets where
  cursor : Date
  access_token : Json
  refresh_token : Json
deriving DecidableEq, Repr

/-- A Google Fit invocation request: persisted `state` plus `secrets`. -/
structure GfitRequest where
  state : StateDict
  secrets : GfitSecrets
deriving DecidableEq, Repr

/-- The network during one Google Fit invocation: the responses of the
sessions endpoint (queried over the window
`[cursorDate 00:00, cursorDate+1 00:00)` America/Chicago) and of the OAuth
token endpoint. -/
structure GfitEnv where
  sessions : HttpResp
  refresh : HttpResp
deriving DecidableEq, Repr

/-- One row of the `sessions` table (googlefit main.py lines 152-164). -/
structure SessionRecord where
  date : Date
  id : Json
  name : Json
  description : Json
  start_time_millis : Json
  end_time_millis : Json
  modified_time_millis : Json
  source : Json
deriving DecidableEq, Repr

/-- The `schema` node of a successful Google Fit response. -/
structure GfitSchema where
  sessions_pk : List String
deriving DecidableEq, Repr

/-- A Google Fit handler response.  The outer `Option` on `insert` is
whether the response dict carries the key at all; the inner `Option` is the
value stored under `"sessions"`, which the success branch sets to `None`
instead of the empty record list (`sessions_insert if sessions_insert else
None`, line 171). -/
structure GfitResponse where
  state : StateDict
  insert : Option (Option (List SessionRecord))
  schema : Option GfitSchema
  hasMore : Bool
deriving DecidableEq, Repr

/-- The record list the caller receives for the `sessions` table: empty
when the key is absent or holds `None`. -/
def GfitResponse.sessionRecords (resp : GfitResponse) : List SessionRecord :=
  match resp.insert with
  | some (some recs) => recs
  | _ => []

/-- `refresh_oauth_token` (googlefit main.py lines 8-47): POST to the OAuth
token endpoint; raise on a non-200 answer, otherwise hand back the new
access token read from the body (Google refresh tokens never rotate). -/
def refresh_oauth_token (resp : HttpResp) : Except HandlerError Json :=
  if resp.status ≠ 200 then .error .authRefreshFailure
  else
    match resp.body.get "access_token" with
    | some a => .ok a
    | none => .error .malformedResponse

/-- State seeding (googlefit main.py lines 72-75): copy `cursor` and
`access_token` — but not any refresh token — from `secrets` into `state`
for each key not yet there. -/
def googlefit_seed (req : GfitRequest) : StateDict :=
  let s1 := if (dget req.state "cursor").isNone
    then dset req.state "cursor" (.date req.secrets.cursor) else req.state
  if (dget s1 "access_token").isNone
    then dset s1 "access_token" (.json req.secrets.access_token) else s1

/-- Reshaping of one session object (googlefit main.py lines 153-162):
every field is a dict lookup; a missing key is an uncaught `KeyError`. -/
def parse_session (d : Date) (sess : Json) : Except HandlerError SessionRecord :=
  match sess.get "id", sess.get "name", sess.get "description",
      sess.get "startTimeMillis", sess.get "endTimeMillis",
      sess.get "modifiedTimeMillis" with
  | some i, some n, some de, some s, some e, some m =>
    match sess.get "application" with
    | some app =>
      match app.get "packageName" with
      | some p => .ok ⟨d, i, n, de, s, e, m, p⟩
      | none => .error .malformedResponse
    | none => .error .malformedResponse
  | _, _, _, _, _, _ => .error .malformedResponse

/-- `handler` (googlefit main.py lines 50-176): seed the state, guard the
cursor, short-circuit when caught up (returning a state that carries ONLY
the cursor), fetch the sessions window, branch on 401 — there is no 429
branch — otherwise reshape each session and advance the cursor by one
day. -/
def googlefit_handler (today : Date) (req : GfitRequest) (env : GfitEnv) :
    Except HandlerError GfitResponse :=
  let st := googlefit_seed req
  match dget st "cursor" with
  | some (.date cursor_date) =>
    if Date.blt today cursor_date then .error .invariantViolation
    else if cursor_date = today then
      .ok { state := [("cursor", .date cursor_date)],
            insert := none, schema := none, hasMore := false }
    else if env.sessions.status = 401 then
      match refresh_oauth_token env.refresh with
      | .error e => .error e
      | .ok a =>
        .ok { state := [("cursor", .date cursor_date),
                        ("access_token", .json a)],
              insert := none, schema := none, hasMore := true }
    else
      match env.sessions.body.get "session" with
      | some (.arr elems) =>
        match mapExcept (parse_session cursor_date) elems.toList with
        | .error e => .error e
        | .ok recs =>
          match dget st "access_token" with
          | some atok =>
            .ok { state := [("cursor", .date cursor_date.nextDay),
                            ("access_token", atok)],
                  insert := some (if recs.isEmpty then none else some recs),
                  schema := some { sessions_pk := ["date", "id"] },
                  hasMore := true }
          | none => .error .keyError
      | _ => .error .malformedResponse
  | some (.json _) => .error .badCursor
  | none => .error .keyError

/-! ## MyFitnessPal connector (`cloud_functions/myfitnesspal/main.py`) -/

/-- The `secrets` node of a MyFitnessPal request: username/password client
login (no token flow) plus the initial cursor. -/
structure MfpSecrets where
  username : String
  password : String
  cursor : Date
deriving DecidableEq, Repr

/-- A MyFitnessPal invocation request: persisted `state` plus `secrets`. -/
structure MfpRequest where
  state : StateDict
  secrets : MfpSecrets
deriving DecidableEq, Repr

/-- One logged meal as the `myfitnesspal` client library yields it:
`meal.name` and the nutrient-total dict `meal.totals`. -/
structure Meal where
  name : String
  totals : List (String × Json)
deriving DecidableEq, Repr

/-- The MyFitnessPal client during one invocation: `client.get_date(y, m,
d).meals` for each requested date. -/
structure MfpEnv where
  getDate : Date → List Meal

/-- One row of the `totals` table (myfitnesspal main.py lines 61-65):
`{'date': ..., 'name': meal.name, **meal.totals}`. -/
structure MfpRecord where
  date : Date
  name : String
  totals : List (String × Json)
deriving DecidableEq, Repr

/-- The `schema` node of a successful MyFitnessPal response. -/
structure MfpSchema where
  totals_pk : List String
deriving DecidableEq, Repr

/-- A MyFitnessPal handler response (its success branch also carries an
empty `delete` node, which holds no information). -/
structure MfpResponse where
  state : StateDict
  insert : Option (List MfpRecord)
  schema : Option MfpSchema
  hasMore : Bool
deriving DecidableEq, Repr

/-- State seeding (myfitnesspal main.py lines 33-34): copy `cursor` from
`secrets` into `state` when not yet there (no tokens exist). -/
def mfp_seed (req : MfpRequest) : StateDict :=
  if (dget req.state "cursor").isNone
    then dset req.state "cursor" (.date req.secrets.cursor) else req.state

/-- The comprehension of myfitnesspal main.py lines 61-65: one record per
meal, for the previous date and then the cursor date. -/
def mfp_records (env : MfpEnv) (prev cur : Date) : List MfpRecord :=
  ((env.getDate prev).map fun m => ⟨prev, m.name, m.totals⟩) ++
  ((env.getDate cur).map fun m => ⟨cur, m.name, m.totals⟩)

/-- `handler` (myfitnesspal main.py lines 7-82): seed the state, guard the
cursor, short-circuit when caught up (returning a state that carries only
the cursor), otherwise fetch meals for the cursor date and the preceding
date and advance the cursor by one day.  No HTTP status branching
exists. -/
def myfitnesspal_handler (today : Date) (req : MfpRequest) (env : MfpEnv) :
    Except HandlerError MfpResponse :=
  let st := mfp_seed req
  match dget st "cursor" with
  | some (.date cursor_date) =>
    if Date.blt today cursor_date then .error .invariantViolation
    else if cursor_date = today then
      .ok { state := [("cursor", .date cursor_date)],
            insert := none, schema := none, hasMore := false }
    else
      .ok { state := [("cursor", .date cursor_date.nextDay)],
            insert := some (mfp_records env cursor_date.prevDay cursor_date),
            schema := some { totals_pk := ["date", "name"] },
            hasMore := true }
  | some (.json _) => .error .badCursor
  | none => .error .keyError

/-! ## Concrete sample inputs used by witnesses and counterexamples -/

/-- 2024-01-05, a cursor strictly before the sample `today`. -/
def d0105 : Date := ⟨2024, 1, 5⟩

/-- 2024-01-10, the sample `today`. -/
def d0110 : Date := ⟨2024, 1, 10⟩

/-- 2024-01-11, a cursor strictly after the sample `today`. -/
def d0111 : Date := ⟨2024, 1, 11⟩

/-- A fully seeded Fitbit/Google Fit style state blob. -/
def state0105 : StateDict :=
  [("cursor", .date d0105), ("access_token", .json (.str "A")),
   ("refresh_token", .json (.str "R"))]

/-- Sample Fitbit secrets. -/
def fbSecrets : FitbitSecrets := ⟨⟨2024, 1, 1⟩, .str "A", .str "R"⟩

/-- A well-shaped daily activity body with the nine summary fields. -/
def activityBody : Json :=
  .obj (.cons "summary"
    (.obj (.cons "steps" (.num 8000)
      (.cons "caloriesBMR" (.num 1600)
      (.cons "caloriesOut" (.num 2400)
      (.cons "activityCalories" (.num 900)
      (.cons "marginalCalories" (.num 500)
      (.cons "sedentaryMinutes" (.num 600)
      (.cons "lightlyActiveMinutes" (.num 200)
      (.cons "fairlyActiveMinutes" (.num 40)
      (.cons "veryActiveMinutes" (.num 30) .nil)))))))))) .nil)

/-- A weight body with an empty `weight` list. -/
def weightEmptyBody : Json := .obj (.cons "weight" (.arr .nil) .nil)

/-- A weight body with a single entry of 70 units. -/
def weightOneBody : Json :=
  .obj (.cons "weight"
    (.arr (.cons (.obj (.cons "weight" (.num 70)
      (.cons "bmi" (.num 22) .nil))) .nil)) .nil)

/-- An OAuth token-endpoint body issuing the pair (`A2`, `R2`). -/
def refreshBody : Json :=
  .obj (.cons "access_token" (.str "A2")
    (.cons "refresh_token" (.str "R2") .nil))

/-- Sample Google Fit secrets. -/
def gfSecrets : GfitSecrets := ⟨⟨2024, 1, 1⟩, .str "A", .str "R"⟩

/-- A Google Fit style state blob (cursor and access token). -/
def gfState0105 : StateDict :=
  [("cursor", .date d0105), ("access_token", .json (.str "A"))]

/-- A well-shaped session object. -/
def sessionBodyOne : Json :=
  .obj (.cons "session"
    (.arr (.cons (.obj
      (.cons "id" (.str "s1")
      (.cons "name" (.str "run")
      (.cons "description" (.str "")
      (.cons "startTimeMillis" (.num 100)
      (.cons "endTimeMillis" (.num 200)
      (.cons "modifiedTimeMillis" (.num 300)
      (.cons "application" (.obj (.cons "packageName" (.str "pkg") .nil))
        .nil)))))))) .nil)) .nil)

/-- A sessions body whose `session` list is empty. -/
def sessionBodyEmpty : Json := .obj (.cons "session" (.arr .nil) .nil)

/-- The one-element session list inside `sessionBodyOne`. -/
def sessionElems1 : JsonList :=
  .cons (.obj
    (.cons "id" (.str "s1")
    (.cons "name" (.str "run")
    (.cons "description" (.str "")
    (.cons "startTimeMillis" (.num 100)
    (.cons "endTimeMillis" (.num 200)
    (.cons "modifiedTimeMillis" (.num 300)
    (.cons "application" (.obj (.cons "packageName" (.str "pkg") .nil))
      .nil)))))))) .nil

/-- Sample MyFitnessPal secrets. -/
def mfpSecrets : MfpSecrets := ⟨"user", "pass", ⟨2024, 1, 1⟩⟩

/-- A MyFitnessPal client that logs one breakfast every day. -/
def mfpEnvConst : MfpEnv :=
  ⟨fun _ => [⟨"breakfast", [("calories", .num 400)]⟩]⟩

/-- The activity record reshaped from `activityBody` for 2024-01-05. -/
def actRec0 : ActivityRecord :=
  ⟨d0105, .num 8000, .num 1600, .num 2400, .num 900, .num 500, .num 600,
   .num 200, .num 40, .num 30⟩

/-- The weight record for 2024-01-05 when the weight list is empty. -/
def wtRecNull : WeightRecord := ⟨d0105, .null⟩

/-- The session record reshaped from `sessionBodyOne` for 2024-01-05. -/
def sessRec0 : SessionRecord :=
  ⟨d0105, .str "s1", .str "run", .str "", .num 100, .num 200, .num 300,
   .str "pkg"⟩

/-! ## Helper lemmas -/

theorem Date.blt_asymm {a b : Date} (h : Date.blt a b = true) :
    Date.blt b a = false := by
  simp only [Date.blt, decide_eq_true_eq, decide_eq_false_iff_not] at *
  omega

theorem Date.blt_ne {a b : Date} (h : Date.blt a b = true) : a ≠ b := by
  simp only [Date.blt, decide_eq_true_eq] at h
  intro he
  subst he
  omega

theorem Date.blt_irrefl (a : Date) : Date.blt a a = false := by
  simp only [Date.blt, decide_eq_false_iff_not]
  omega

/-- When the state already carries all three keys, Fitbit seeding is the
identity. -/
theorem fitbit_seed_of_complete {req : FitbitRequest} {c a r : SVal}
    (h1 : dget req.state "cursor" = some c)
    (h2 : dget req.state "access_token" = some a)
    (h3 : dget req.state "refresh_token" = some r) :
    fitbit_seed req = req.state := by
  simp [fitbit_seed, h1, h2, h3]

/-- When the state already carries both keys, Google Fit seeding is the
identity. -/
theorem googlefit_seed_of_complete {req : GfitRequest} {c a : SVal}
    (h1 : dget req.state "cursor" = some c)
    (h2 : dget req.state "access_token" = some a) :
    googlefit_seed req = req.state := by
  simp [googlefit_seed, h1, h2]

/-- When the state already carries the cursor, MyFitnessPal seeding is the
identity. -/
theorem mfp_seed_of_complete {req : MfpRequest} {c : SVal}
    (h1 : dget req.state "cursor" = some c) :
    mfp_seed req = req.state := by
  simp [mfp_seed, h1]

/-- C3: invoking any of the three handlers with a cursor date strictly
after `today` fails with the `InvariantViolation` error, for every
environment — so the outcome depends on no data request and carries no
records. -/
theorem c3_future_cursor_fails_invariant_violation :
    (∀ (today d : Date) (req : FitbitRequest) (env : FitbitEnv),
      dget (fitbit_seed req) "cursor" = some (.date d) →
      Date.blt today d = true →
      fitbit_handler today req env = .error .invariantViolation)
  ∧ (∀ (today d : Date) (req : GfitRequest) (env : GfitEnv),
      dget (googlefit_seed req) "cursor" = some (.date d) →
      Date.blt today d = true →
      googlefit_handler today req env = .error .invariantViolation)
  ∧ (∀ (today d : Date) (req : MfpRequest) (env : MfpEnv),
      dget (mfp_seed req) "cursor" = some (.date d) →
      Date.blt today d = true →
      myfitnesspal_handler today req env = .error .invariantViolation) := by
  refine ⟨?_, ?_, ?_⟩ <;> intro today d req env hc hgt <;>
    simp [fitbit_handler, googlefit_handler, myfitnesspal_handler, hc, hgt]

/-- Witness for C3 at cursor 2024-01-11, today 2024-01-10. -/
theorem c3_witness :
    (dget (fitbit_seed ⟨[("cursor", .date d0111)], fbSecrets⟩) "cursor"
        = some (.date d0111)
      ∧ Date.blt d0110 d0111 = true
      ∧ fitbit_handler d0110 ⟨[("cursor", .date d0111)], fbSecrets⟩
          ⟨⟨200, .null⟩, ⟨200, .null⟩, ⟨200, .null⟩⟩
        = .error .invariantViolation)
  ∧ googlefit_handler d0110 ⟨[("cursor", .date d0111)], gfSecrets⟩
      ⟨⟨200, .null⟩, ⟨200, .null⟩⟩ = .error .invariantViolation
  ∧ myfitnesspal_handler d0110 ⟨[("cursor", .date d0111)], mfpSecrets⟩
      mfpEnvConst = .error .invariantViolation :=
  ⟨⟨by decide, by decide,
    c3_future_cursor_fails_invariant_violation.1 d0110 d0111 _ _
      (by decide) (by decide)⟩,
  c3_future_cursor_fails_invariant_violation.2.1 d0110 d0111 _ _
    (by decide) (by decide),
  c3_future_cursor_fails_invariant_violation.2.2 d0110 d0111 _ _
    (by decide) (by decide)⟩

/-- C1: for each of the three handlers, when the (seeded) cursor date is
strictly before `today` and the invocation succeeds — no 401, no 429, the
reshaping of every body succeeds — the returned state's cursor is the
input cursor date plus exactly one calendar day and `hasMore` is true. -/
theorem c1_success_advances_cursor_one_day :
    (∀ (today d : Date) (req : FitbitRequest) (env : FitbitEnv)
        (act : ActivityRecord) (wt : WeightRecord) (atok rtok : SVal),
      dget (fitbit_seed req) "cursor" = some (.date d) →
      Date.blt d today = true →
      env.activity.status ≠ 401 → env.weight.status ≠ 401 →
      env.activity.status ≠ 429 → env.weight.status ≠ 429 →
      parse_activity d env.activity.body = .ok act →
      parse_weight d env.weight.body = .ok wt →
      dget (fitbit_seed req) "access_token" = some atok →
      dget (fitbit_seed req) "refresh_token" = some rtok →
      ∃ resp, fitbit_handler today req env = .ok resp ∧
        dget resp.state "cursor" = some (.date d.nextDay) ∧
        resp.hasMore = true)
  ∧ (∀ (today d : Date) (req : GfitRequest) (env : GfitEnv)
        (elems : JsonList) (recs : List SessionRecord) (atok : SVal),
      dget (googlefit_seed req) "cursor" = some (.date d) →
      Date.blt d today = true →
      env.sessions.status ≠ 401 → env.sessions.status ≠ 429 →
      env.sessions.body.get "session" = some (.arr elems) →
      mapExcept (parse_session d) elems.toList = .ok recs →
      dget (googlefit_seed req) "access_token" = some atok →
      ∃ resp, googlefit_handler today req env = .ok resp ∧
        dget resp.state "cursor" = some (.date d.nextDay) ∧
        resp.hasMore = true)
  ∧ (∀ (today d : Date) (req : MfpRequest) (env : MfpEnv),
      dget (mfp_seed req) "cursor" = some (.date d) →
      Date.blt d today = true →
      ∃ resp, myfitnesspal_handler today req env = .ok resp ∧
        dget resp.state "cursor" = some (.date d.nextDay) ∧
        resp.hasMore = true) := by
  refine ⟨?_, ?_, ?_⟩
  · intro today d req env act wt atok rtok hc hlt ha1 hw1 ha2 hw2 hpa hpw hat hrt
    simp [fitbit_handler, hc, Date.blt_asymm hlt, Date.blt_ne hlt,
      ha1, hw1, ha2, hw2, hpa, hpw, hat, hrt]
    simp [dget, List.find?]
  · intro today d req env elems recs atok hc hlt h1 _h2 hs hm hat
    simp [googlefit_handler, hc, Date.blt_asymm hlt, Date.blt_ne hlt,
      h1, hs, hm, hat]
    simp [dget, List.find?]
  · intro today d req env hc hlt
    simp [myfitnesspal_handler, hc, Date.blt_asymm hlt, Date.blt_ne hlt]
    simp [dget, List.find?]

/-- Witness for C1: a successful invocation of each handler at cursor
2024-01-05, today 2024-01-10, lands on cursor 2024-01-06 with more to
do. -/
theorem c1_witness :
    (Date.blt d0105 d0110 = true
      ∧ ∃ resp, fitbit_handler d0110 ⟨state0105, fbSecrets⟩
          ⟨⟨200, activityBody⟩, ⟨200, weightEmptyBody⟩, ⟨200, .null⟩⟩ = .ok resp
        ∧ dget resp.state "cursor" = some (.date (Date.nextDay d0105))
        ∧ resp.hasMore = true)
  ∧ (∃ resp, googlefit_handler d0110 ⟨gfState0105, gfSecrets⟩
        ⟨⟨200, sessionBodyOne⟩, ⟨200, .null⟩⟩ = .ok resp
      ∧ dget resp.state "cursor" = some (.date (Date.nextDay d0105))
      ∧ resp.hasMore = true)
  ∧ (∃ resp, myfitnesspal_handler d0110 ⟨[("cursor", .date d0105)], mfpSecrets⟩
        mfpEnvConst = .ok resp
      ∧ dget resp.state "cursor" = some (.date (Date.nextDay d0105))
      ∧ resp.hasMore = true) :=
  ⟨⟨by decide,
    c1_success_advances_cursor_one_day.1 d0110 d0105 _ _ actRec0 wtRecNull
      (.json (.str "A")) (.json (.str "R")) (by decide) (by decide)
      (by decide) (by decide) (by decide) (by decide) (by decide) (by decide)
      (by decide) (by decide)⟩,
  c1_success_advances_cursor_one_day.2.1 d0110 d0105 _ _
    sessionElems1 [sessRec0] (.json (.str "A"))
    (by decide) (by decide) (by decide) (by decide) (by decide) (by decide)
    (by decide),
  c1_success_advances_cursor_one_day.2.2 d0110 d0105 _ mfpEnvConst
    (by decide) (by decide)⟩

/-- C2 counterexample: a Google Fit invocation with cursor date equal to
today and a complete input state returns `hasMore = false` but a state
holding ONLY the cursor — the `access_token` key of the input state is
dropped, so the returned state is not identical to the input state. -/
theorem c2_counterexample_googlefit_drops_token :
    googlefit_handler d0110
        ⟨[("cursor", .date d0110), ("access_token", .json (.str "A"))],
         gfSecrets⟩
        ⟨⟨200, .null⟩, ⟨200, .null⟩⟩
      = .ok { state := [("cursor", .date d0110)], insert := none,
              schema := none, hasMore := false }
    ∧ [("cursor", SVal.date d0110)]
      ≠ [("cursor", SVal.date d0110), ("access_token", SVal.json (.str "A"))] :=
  ⟨by decide, by decide⟩

/-- C2 amended: with cursor date equal to today, every handler returns
`hasMore = false` without touching any token endpoint (the conclusion holds
for every environment).  The Fitbit handler returns the input state
unchanged with all three keys still present; the Google Fit and
MyFitnessPal handlers return a state holding only the cursor key, whose
value is unchanged. -/
theorem c2_caught_up_returns_unchanged_cursor :
    (∀ (today : Date) (req : FitbitRequest) (env : FitbitEnv) (a r : SVal),
      dget req.state "cursor" = some (.date today) →
      dget req.state "access_token" = some a →
      dget req.state "refresh_token" = some r →
      fitbit_handler today req env =
        .ok { state := req.state, insert := none, schema := none,
              hasMore := false,
              returnCause := some "Cursor date not complete yet" })
  ∧ (∀ (today : Date) (req : GfitRequest) (env : GfitEnv),
      dget (googlefit_seed req) "cursor" = some (.date today) →
      googlefit_handler today req env =
        .ok { state := [("cursor", .date today)], insert := none,
              schema := none, hasMore := false })
  ∧ (∀ (today : Date) (req : MfpRequest) (env : MfpEnv),
      dget (mfp_seed req) "cursor" = some (.date today) →
      myfitnesspal_handler today req env =
        .ok { state := [("cursor", .date today)], insert := none,
              schema := none, hasMore := false }) := by
  refine ⟨?_, ?_, ?_⟩
  · intro today req env a r h1 h2 h3
    have hs := fitbit_seed_of_complete h1 h2 h3
    simp [fitbit_handler, hs, h1, Date.blt_irrefl]
  · intro today req env hc
    simp [googlefit_handler, hc, Date.blt_irrefl]
  · intro today req env hc
    simp [myfitnesspal_handler, hc, Date.blt_irrefl]

/-- Witness for the amended C2 at cursor = today = 2024-01-10. -/
theorem c2_witness :
    (fitbit_handler d0110
        ⟨[("cursor", .date d0110), ("access_token", .json (.str "A")),
          ("refresh_token", .json (.str "R"))], fbSecrets⟩
        ⟨⟨200, .null⟩, ⟨200, .null⟩, ⟨200, .null⟩⟩
      = .ok { state := [("cursor", .date d0110),
                        ("access_token", .json (.str "A")),
                        ("refresh_token", .json (.str "R"))],
              insert := none, schema := none, hasMore := false,
              returnCause := some "Cursor date not complete yet" })
  ∧ (googlefit_handler d0110 ⟨[("cursor", .date d0110)], gfSecrets⟩
        ⟨⟨200, .null⟩, ⟨200, .null⟩⟩
      = .ok { state := [("cursor", .date d0110)], insert := none,
              schema := none, hasMore := false })
  ∧ (myfitnesspal_handler d0110 ⟨[("cursor", .date d0110)], mfpSecrets⟩
        mfpEnvConst
      = .ok { state := [("cursor", .date d0110)], insert := none,
              schema := none, hasMore := false }) :=
  ⟨c2_caught_up_returns_unchanged_cursor.1 d0110 _ _
      (.json (.str "A")) (.json (.str "R")) (by decide) (by decide) (by decide),
  c2_caught_up_returns_unchanged_cursor.2.1 d0110 _ _ (by decide),
  c2_caught_up_returns_unchanged_cursor.2.2 d0110 _ mfpEnvConst (by decide)⟩

/-- C4: on a 401 with a successful refresh-token exchange, Fitbit and
Google Fit return the cursor unchanged, store the newly issued tokens in
the returned state (Google Fit's state carries only the access token — its
refresh token never rotates and lives in `secrets`), and report
`hasMore = true`; the returned tokens therefore differ from the tokens the
fetch was attempted with whenever the issued ones are fresh. -/
theorem c4_token_refresh_keeps_cursor :
    (∀ (today d : Date) (req : FitbitRequest) (env : FitbitEnv)
        (a2 r2 : Json),
      dget (fitbit_seed req) "cursor" = some (.date d) →
      Date.blt d today = true →
      (env.activity.status = 401 ∨ env.weight.status = 401) →
      env.refresh.status = 200 →
      env.refresh.body.get "access_token" = some a2 →
      env.refresh.body.get "refresh_token" = some r2 →
      ∃ resp, fitbit_handler today req env = .ok resp ∧
        dget resp.state "cursor" = some (.date d) ∧
        dget resp.state "access_token" = some (.json a2) ∧
        dget resp.state "refresh_token" = some (.json r2) ∧
        resp.hasMore = true ∧
        (some (SVal.json a2) ≠ dget (fitbit_seed req) "access_token" →
          dget resp.state "access_token" ≠ dget (fitbit_seed req) "access_token") ∧
        (some (SVal.json r2) ≠ dget (fitbit_seed req) "refresh_token" →
          dget resp.state "refresh_token" ≠ dget (fitbit_seed req) "refresh_token"))
  ∧ (∀ (today d : Date) (req : GfitRequest) (env : GfitEnv) (a2 : Json),
      dget (googlefit_seed req) "cursor" = some (.date d) →
      Date.blt d today = true →
      env.sessions.status = 401 →
      env.refresh.status = 200 →
      env.refresh.body.get "access_token" = some a2 →
      ∃ resp, googlefit_handler today req env = .ok resp ∧
        dget resp.state "cursor" = some (.date d) ∧
        dget resp.state "access_token" = some (.json a2) ∧
        resp.hasMore = true ∧
        (some (SVal.json a2) ≠ dget (googlefit_seed req) "access_token" →
          dget resp.state "access_token" ≠ dget (googlefit_seed req) "access_token")) := by
  constructor
  · intro today d req env a2 r2 hc hlt h401 hst ha hr
    simp [fitbit_handler, hc, Date.blt_asymm hlt, Date.blt_ne hlt, h401,
      refresh_fitbit_token, hst, ha, hr]
    simp [dget, List.find?]
  · intro today d req env a2 hc hlt h401 hst ha
    simp [googlefit_handler, hc, Date.blt_asymm hlt, Date.blt_ne hlt, h401,
      refresh_oauth_token, hst, ha]
    simp [dget, List.find?]

/-- Witness for C4: a 401 on the activity (resp. sessions) request with a
refresh exchange issuing fresh tokens (`A2`, `R2`). -/
theorem c4_witness :
    (∃ resp, fitbit_handler d0110 ⟨state0105, fbSecrets⟩
        ⟨⟨401, .null⟩, ⟨200, weightEmptyBody⟩, ⟨200, refreshBody⟩⟩ = .ok resp ∧
      dget resp.state "cursor" = some (.date d0105) ∧
      dget resp.state "access_token" = some (.json (.str "A2")) ∧
      dget resp.state "refresh_token" = some (.json (.str "R2")) ∧
      resp.hasMore = true ∧
      (some (SVal.json (.str "A2"))
          ≠ dget (fitbit_seed ⟨state0105, fbSecrets⟩) "access_token" →
        dget resp.state "access_token"
          ≠ dget (fitbit_seed ⟨state0105, fbSecrets⟩) "access_token") ∧
      (some (SVal.json (.str "R2"))
          ≠ dget (fitbit_seed ⟨state0105, fbSecrets⟩) "refresh_token" →
        dget resp.state "refresh_token"
          ≠ dget (fitbit_seed ⟨state0105, fbSecrets⟩) "refresh_token"))
  ∧ (∃ resp, googlefit_handler d0110 ⟨gfState0105, gfSecrets⟩
        ⟨⟨401, .null⟩, ⟨200, refreshBody⟩⟩ = .ok resp ∧
      dget resp.state "cursor" = some (.date d0105) ∧
      dget resp.state "access_token" = some (.json (.str "A2")) ∧
      resp.hasMore = true ∧
      (some (SVal.json (.str "A2"))
          ≠ dget (googlefit_seed ⟨gfState0105, gfSecrets⟩) "access_token" →
        dget resp.state "access_token"
          ≠ dget (googlefit_seed ⟨gfState0105, gfSecrets⟩) "access_token")) :=
  ⟨c4_token_refresh_keeps_cursor.1 d0110 d0105 _ _ (.str "A2") (.str "R2")
      (by decide) (by decide) (by decide) (by decide) (by decide) (by decide),
  c4_token_refresh_keeps_cursor.2 d0110 d0105 _ _ (.str "A2")
    (by decide) (by decide) (by decide) (by decide) (by decide)⟩

/-- C10: when the two Fitbit data requests fail differently — one 401, the
other 429 — the 401 check (main.py line 115) runs before the 429 check
(line 131), so the token-expiry branch wins: the refresh exchange is
performed and the token-refreshed response with `hasMore = true` is
returned, not the rate-limit response. -/
theorem c10_fitbit_401_beats_429 :
    ∀ (today d : Date) (req : FitbitRequest) (env : FitbitEnv)
      (a2 r2 : Json),
      dget (fitbit_seed req) "cursor" = some (.date d) →
      Date.blt d today = true →
      ((env.activity.status = 401 ∧ env.weight.status = 429) ∨
       (env.activity.status = 429 ∧ env.weight.status = 401)) →
      env.refresh.status = 200 →
      env.refresh.body.get "access_token" = some a2 →
      env.refresh.body.get "refresh_token" = some r2 →
      fitbit_handler today req env =
        .ok { state := [("cursor", .date d), ("access_token", .json a2),
                        ("refresh_token", .json r2)],
              insert := none, schema := none, hasMore := true,
              returnCause := some "OAuth token required refresh" } := by
  intro today d req env a2 r2 hc hlt hmix hst ha hr
  rcases hmix with ⟨h1, h2⟩ | ⟨h1, h2⟩ <;>
    simp [fitbit_handler, hc, Date.blt_asymm hlt, Date.blt_ne hlt, h1, h2,
      refresh_fitbit_token, hst, ha, hr]

/-- Witness for C10: activity 401, weight 429. -/
theorem c10_witness :
    fitbit_handler d0110 ⟨state0105, fbSecrets⟩
        ⟨⟨401, .null⟩, ⟨429, .null⟩, ⟨200, refreshBody⟩⟩
      = .ok { state := [("cursor", .date d0105),
                        ("access_token", .json (.str "A2")),
                        ("refresh_token", .json (.str "R2"))],
              insert := none, schema := none, hasMore := true,
              returnCause := some "OAuth token required refresh" } :=
  c10_fitbit_401_beats_429 d0110 d0105 _ _ (.str "A2") (.str "R2")
    (by decide) (by decide) (Or.inl ⟨by decide, by decide⟩)
    (by decide) (by decide) (by decide)

/-- C5 counterexample: a Google Fit invocation with cursor 2024-01-05
strictly before today 2024-01-10 whose sessions request answers HTTP 429
does not return the unchanged input state with `hasMore = false`: the
handler has no rate-limit branch, falls through to the parse step, and
propagates a `MalformedResponse` error. -/
theorem c5_counterexample_googlefit_429_falls_through :
    googlefit_handler d0110 ⟨gfState0105, gfSecrets⟩
        ⟨⟨429, .obj .nil⟩, ⟨200, .null⟩⟩
      = .error .malformedResponse := by decide

/-- C5 amended: on a 429 (with no 401) the FITBIT handler returns a state
byte-for-byte identical to the input state, `hasMore = false` and no
records; the Google Fit handler has no rate-limit branch and instead
treats the 429 answer like a data response, failing with
`MalformedResponse` when its body lacks the `session` key.  MyFitnessPal
issues no status-bearing request. -/
theorem c5_rate_limit_state_identical :
    (∀ (today d : Date) (req : FitbitRequest) (env : FitbitEnv) (a r : SVal),
      dget req.state "cursor" = some (.date d) →
      dget req.state "access_token" = some a →
      dget req.state "refresh_token" = some r →
      Date.blt d today = true →
      env.activity.status ≠ 401 → env.weight.status ≠ 401 →
      (env.activity.status = 429 ∨ env.weight.status = 429) →
      fitbit_handler today req env =
        .ok { state := req.state, insert := none, schema := none,
              hasMore := false, returnCause := some "Hit rate limit" })
  ∧ (∀ (today d : Date) (req : GfitRequest) (env : GfitEnv),
      dget (googlefit_seed req) "cursor" = some (.date d) →
      Date.blt d today = true →
      env.sessions.status = 429 →
      env.sessions.body.get "session" = none →
      googlefit_handler today req env = .error .malformedResponse) := by
  constructor
  · intro today d req env a r h1 h2 h3 hlt ha1 hw1 h429
    have hs := fitbit_seed_of_complete h1 h2 h3
    simp [fitbit_handler, hs, h1, Date.blt_asymm hlt, Date.blt_ne hlt,
      ha1, hw1, h429]
  · intro today d req env hc hlt h429 hbody
    simp [googlefit_handler, hc, Date.blt_asymm hlt, Date.blt_ne hlt,
      h429, hbody]

/-- Witness for the amended C5: weight request rate limited at Fitbit;
sessions request rate limited at Google Fit. -/
theorem c5_witness :
    (fitbit_handler d0110 ⟨state0105, fbSecrets⟩
        ⟨⟨200, activityBody⟩, ⟨429, .null⟩, ⟨200, .null⟩⟩
      = .ok { state := state0105, insert := none, schema := none,
              hasMore := false, returnCause := some "Hit rate limit" })
  ∧ googlefit_handler d0110 ⟨gfState0105, gfSecrets⟩
        ⟨⟨429, .obj (.cons "error" (.str "rate limit") .nil)⟩, ⟨200, .null⟩⟩
      = .error .malformedResponse :=
  ⟨c5_rate_limit_state_identical.1 d0110 d0105 _ _
      (.json (.str "A")) (.json (.str "R"))
      (by decide) (by decide) (by decide) (by decide) (by decide) (by decide)
      (by decide),
  c5_rate_limit_state_identical.2 d0110 d0105 _ _
    (by decide) (by decide) (by decide) (by decide)⟩

/-- C6: at a concrete successful Fitbit invocation the returned state blob
carries a FOURTH key, `returnCause` (fitbit main.py line 166 places it
inside the `state` dict, unlike the other three returns of the same file,
which place it at the top level of the response) — so the persisted state
is not limited to `cursor`/`access_token`/`refresh_token`. -/
theorem c6_fitbit_success_state_has_extra_key :
    fitbit_handler d0110 ⟨state0105, fbSecrets⟩
        ⟨⟨200, activityBody⟩, ⟨200, weightEmptyBody⟩, ⟨200, .null⟩⟩
      = .ok { state := [("cursor", .date ⟨2024, 1, 6⟩),
                        ("access_token", .json (.str "A")),
                        ("refresh_token", .json (.str "R")),
                        ("returnCause", .json (.str "Successfully retrieved data"))],
              insert := some { activity := [actRec0], weight := [wtRecNull] },
              schema := some { activity_pk := ["date"], weight_pk := ["date"] },
              hasMore := true, returnCause := none } := by decide

/-- C7: on the success path, a response body missing the expected JSON
shape — no `summary` key in the activity body, no `weight` key in the
weight body, no `session` key in the sessions body — makes the handler
fail with a propagated `MalformedResponse` error: no response is returned
at all, so no records are emitted and the cursor is not advanced. -/
theorem c7_missing_shape_propagates_malformed :
    (∀ (today d : Date) (req : FitbitRequest) (env : FitbitEnv),
      dget (fitbit_seed req) "cursor" = some (.date d) →
      Date.blt d today = true →
      env.activity.status ≠ 401 → env.weight.status ≠ 401 →
      env.activity.status ≠ 429 → env.weight.status ≠ 429 →
      env.activity.body.get "summary" = none →
      fitbit_handler today req env = .error .malformedResponse)
  ∧ (∀ (today d : Date) (req : FitbitRequest) (env : FitbitEnv)
        (act : ActivityRecord),
      dget (fitbit_seed req) "cursor" = some (.date d) →
      Date.blt d today = true →
      env.activity.status ≠ 401 → env.weight.status ≠ 401 →
      env.activity.status ≠ 429 → env.weight.status ≠ 429 →
      parse_activity d env.activity.body = .ok act →
      env.weight.body.get "weight" = none →
      fitbit_handler today req env = .error .malformedResponse)
  ∧ (∀ (today d : Date) (req : GfitRequest) (env : GfitEnv),
      dget (googlefit_seed req) "cursor" = some (.date d) →
      Date.blt d today = true →
      env.sessions.status ≠ 401 →
      env.sessions.body.get "session" = none →
      googlefit_handler today req env = .error .malformedResponse) := by
  refine ⟨?_, ?_, ?_⟩
  · intro today d req env hc hlt ha1 hw1 ha2 hw2 hsum
    simp [fitbit_handler, parse_activity, hc, Date.blt_asymm hlt,
      Date.blt_ne hlt, ha1, hw1, ha2, hw2, hsum]
  · intro today d req env act hc hlt ha1 hw1 ha2 hw2 hpa hwt
    simp [fitbit_handler, parse_weight, hc, Date.blt_asymm hlt,
      Date.blt_ne hlt, ha1, hw1, ha2, hw2, hpa, hwt]
  · intro today d req env hc hlt h401 hsess
    simp [googlefit_handler, hc, Date.blt_asymm hlt, Date.blt_ne hlt,
      h401, hsess]

/-- Witness for C7: bodies that are empty JSON objects in place of the
expected shapes. -/
theorem c7_witness :
    fitbit_handler d0110 ⟨state0105, fbSecrets⟩
        ⟨⟨200, .obj .nil⟩, ⟨200, weightEmptyBody⟩, ⟨200, .null⟩⟩
      = .error .malformedResponse
  ∧ fitbit_handler d0110 ⟨state0105, fbSecrets⟩
        ⟨⟨200, activityBody⟩, ⟨200, .obj .nil⟩, ⟨200, .null⟩⟩
      = .error .malformedResponse
  ∧ googlefit_handler d0110 ⟨gfState0105, gfSecrets⟩
        ⟨⟨200, .obj .nil⟩, ⟨200, .null⟩⟩
      = .error .malformedResponse :=
  ⟨c7_missing_shape_propagates_malformed.1 d0110 d0105 _ _
      (by decide) (by decide) (by decide) (by decide) (by decide) (by decide)
      (by decide),
  c7_missing_shape_propagates_malformed.2.1 d0110 d0105 _ _ actRec0
    (by decide) (by decide) (by decide) (by decide) (by decide) (by decide)
    (by decide) (by decide),
  c7_missing_shape_propagates_malformed.2.2 d0110 d0105 _ _
    (by decide) (by decide) (by decide) (by decide)⟩

theorem JsonList.toList_length :
    ∀ (elems : JsonList), elems.toList.length = elems.length
  | .nil => rfl
  | .cons _ t => by
    simp [JsonList.toList, JsonList.length, JsonList.toList_length t]

theorem mapExcept_ok_length {α β ε : Type} (f : α → Except ε β) :
    ∀ (xs : List α) (ys : List β), mapExcept f xs = .ok ys →
      ys.length = xs.length := by
  intro xs
  induction xs with
  | nil =>
    intro ys h
    simp only [mapExcept] at h
    cases h
    rfl
  | cons x xs ih =>
    intro ys h
    simp only [mapExcept] at h
    cases hfx : f x with
    | error e => rw [hfx] at h; cases h
    | ok y =>
      rw [hfx] at h
      cases hm : mapExcept f xs with
      | error e => rw [hm] at h; cases h
      | ok ys2 =>
        rw [hm] at h
        cases h
        simp [ih ys2 hm]

theorem mapExcept_ok_forall {α β ε : Type} (f : α → Except ε β)
    (p : β → Prop) (hf : ∀ a b, f a = .ok b → p b) :
    ∀ (xs : List α) (ys : List β), mapExcept f xs = .ok ys →
      ∀ y ∈ ys, p y := by
  intro xs
  induction xs with
  | nil =>
    intro ys h
    simp only [mapExcept] at h
    cases h
    intro y hy
    cases hy
  | cons x xs ih =>
    intro ys h
    simp only [mapExcept] at h
    cases hfx : f x with
    | error e => rw [hfx] at h; cases h
    | ok y =>
      rw [hfx] at h
      cases hm : mapExcept f xs with
      | error e => rw [hm] at h; cases h
      | ok ys2 =>
        rw [hm] at h
        cases h
        intro z hz
        cases hz with
        | head => exact hf x y hfx
        | tail _ hz2 => exact ih ys2 hm z hz2

theorem parse_session_date {d : Date} {s : Json} {r : SessionRecord}
    (h : parse_session d s = .ok r) : r.date = d := by
  simp only [parse_session] at h
  repeat' split at h
  all_goals cases h
  rfl

/-- C8: on the Google Fit success branch, zero returned sessions emit zero
records for the `sessions` table (the value stored under the key is `None`
rather than a placeholder, so the caller receives no records), and
otherwise each returned session becomes exactly one record (as many
records as sessions, each dated with the cursor date) under the declared
primary key `{date, id}`. -/
theorem c8_sessions_one_record_each :
    ∀ (today d : Date) (req : GfitRequest) (env : GfitEnv)
      (elems : JsonList) (recs : List SessionRecord) (atok : SVal),
      dget (googlefit_seed req) "cursor" = some (.date d) →
      Date.blt d today = true →
      env.sessions.status ≠ 401 →
      env.sessions.body.get "session" = some (.arr elems) →
      mapExcept (parse_session d) elems.toList = .ok recs →
      dget (googlefit_seed req) "access_token" = some atok →
      ∃ resp, googlefit_handler today req env = .ok resp ∧
        resp.insert = some (if recs.isEmpty then none else some recs) ∧
        resp.sessionRecords = recs ∧
        recs.length = elems.length ∧
        (elems = .nil → resp.insert = some none ∧ resp.sessionRecords = []) ∧
        (∀ rec ∈ recs, rec.date = d) ∧
        resp.schema = some { sessions_pk := ["date", "id"] } := by
  intro today d req env elems recs atok hc hlt h401 hs hm hat
  have hrun : googlefit_handler today req env =
      .ok { state := [("cursor", .date d.nextDay), ("access_token", atok)],
            insert := some (if recs.isEmpty then none else some recs),
            schema := some { sessions_pk := ["date", "id"] },
            hasMore := true } := by
    simp [googlefit_handler, hc, Date.blt_asymm hlt, Date.blt_ne hlt, h401,
      hs, hm, hat]
  refine ⟨_, hrun, rfl, ?_, ?_, ?_, ?_, rfl⟩
  · cases recs with
    | nil => simp [GfitResponse.sessionRecords, List.isEmpty]
    | cons a l => simp [GfitResponse.sessionRecords, List.isEmpty]
  · rw [mapExcept_ok_length _ _ _ hm, JsonList.toList_length]
  · intro he
    subst he
    simp only [JsonList.toList, mapExcept] at hm
    cases hm
    simp [GfitResponse.sessionRecords, List.isEmpty]
  · exact mapExcept_ok_forall _ _ (fun a b hb => parse_session_date hb) _ _ hm

/-- Witness for C8: one invocation returning a single session (one record)
and one returning zero sessions (no records, value `None`). -/
theorem c8_witness :
    (∃ resp, googlefit_handler d0110 ⟨gfState0105, gfSecrets⟩
        ⟨⟨200, sessionBodyOne⟩, ⟨200, .null⟩⟩ = .ok resp ∧
      resp.insert = some (if ([sessRec0] : List SessionRecord).isEmpty
        then none else some [sessRec0]) ∧
      resp.sessionRecords = [sessRec0] ∧
      ([sessRec0] : List SessionRecord).length = (1 : Nat) ∧
      (∀ rec ∈ ([sessRec0] : List SessionRecord), rec.date = d0105) ∧
      resp.schema = some { sessions_pk := ["date", "id"] })
  ∧ (∃ resp, googlefit_handler d0110 ⟨gfState0105, gfSecrets⟩
        ⟨⟨200, sessionBodyEmpty⟩, ⟨200, .null⟩⟩ = .ok resp ∧
      resp.insert = some none ∧ resp.sessionRecords = []) := by
  constructor
  · obtain ⟨resp, h1, h2, h3, h4, _h5, h6, h7⟩ :=
      c8_sessions_one_record_each d0110 d0105 ⟨gfState0105, gfSecrets⟩
        ⟨⟨200, sessionBodyOne⟩, ⟨200, .null⟩⟩ sessionElems1 [sessRec0]
        (.json (.str "A"))
        (by decide) (by decide) (by decide) (by decide) (by decide) (by decide)
    exact ⟨resp, h1, h2, h3, by decide, h6, h7⟩
  · obtain ⟨resp, h1, _h2, _h3, _h4, h5, _h6, _h7⟩ :=
      c8_sessions_one_record_each d0110 d0105 ⟨gfState0105, gfSecrets⟩
        ⟨⟨200, sessionBodyEmpty⟩, ⟨200, .null⟩⟩ .nil [] (.json (.str "A"))
        (by decide) (by decide) (by decide) (by decide) (by decide) (by decide)
    exact ⟨resp, h1, h5 rfl⟩

/-- C9: on the Fitbit success branch the emitted weight record carries the
cursor date in its `date` field and a `weight` that is null when the
day's `weight` list is empty and otherwise is the `weight` value of the
first entry of that list — so the field can be null with entries present
only if that entry's own value is null. -/
theorem c9_weight_null_iff_no_entries :
    ∀ (today d : Date) (req : FitbitRequest) (env : FitbitEnv)
      (act : ActivityRecord) (atok rtok : SVal),
      dget (fitbit_seed req) "cursor" = some (.date d) →
      Date.blt d today = true →
      env.activity.status ≠ 401 → env.weight.status ≠ 401 →
      env.activity.status ≠ 429 → env.weight.status ≠ 429 →
      parse_activity d env.activity.body = .ok act →
      dget (fitbit_seed req) "access_token" = some atok →
      dget (fitbit_seed req) "refresh_token" = some rtok →
      ((env.weight.body.get "weight" = some (.arr .nil) →
        ∃ resp, fitbit_handler today req env = .ok resp ∧
          resp.insert = some (⟨[act], [⟨d, .null⟩]⟩ : FitbitInsert))
      ∧ ∀ (e : Json) (tail : JsonList) (v : Json),
          env.weight.body.get "weight" = some (.arr (.cons e tail)) →
          e.get "weight" = some v →
          ∃ resp, fitbit_handler today req env = .ok resp ∧
            resp.insert = some (⟨[act], [⟨d, v⟩]⟩ : FitbitInsert) ∧
            (v ≠ .null →
              resp.insert ≠ some (⟨[act], [⟨d, .null⟩]⟩ : FitbitInsert))) := by
  intro today d req env act atok rtok hc hlt ha1 hw1 ha2 hw2 hpa hat hrt
  constructor
  · intro hw
    have hpw : parse_weight d env.weight.body = .ok ⟨d, .null⟩ := by
      simp [parse_weight, hw]
    simp [fitbit_handler, hc, Date.blt_asymm hlt, Date.blt_ne hlt,
      ha1, hw1, ha2, hw2, hpa, hpw, hat, hrt]
  · intro e tail v hw he
    have hpw : parse_weight d env.weight.body = .ok ⟨d, v⟩ := by
      simp [parse_weight, hw, he]
    have hrun : fitbit_handler today req env =
        .ok { state := [("cursor", .date d.nextDay), ("access_token", atok),
                        ("refresh_token", rtok),
                        ("returnCause", .json (.str "Successfully retrieved data"))],
              insert := some (⟨[act], [⟨d, v⟩]⟩ : FitbitInsert),
              schema := some { activity_pk := ["date"], weight_pk := ["date"] },
              hasMore := true, returnCause := none } := by
      simp [fitbit_handler, hc, Date.blt_asymm hlt, Date.blt_ne hlt,
        ha1, hw1, ha2, hw2, hpa, hpw, hat, hrt]
    refine ⟨_, hrun, rfl, ?_⟩
    intro hv heq
    apply hv
    simpa using heq

/-- Witness for C9: a day with no weight entries yields a null weight; a
day with one 70-unit entry yields weight 70 (and not null). -/
theorem c9_witness :
    (∃ resp, fitbit_handler d0110 ⟨state0105, fbSecrets⟩
        ⟨⟨200, activityBody⟩, ⟨200, weightEmptyBody⟩, ⟨200, .null⟩⟩ = .ok resp ∧
      resp.insert = some (⟨[actRec0], [⟨d0105, .null⟩]⟩ : FitbitInsert))
  ∧ (∃ resp, fitbit_handler d0110 ⟨state0105, fbSecrets⟩
        ⟨⟨200, activityBody⟩, ⟨200, weightOneBody⟩, ⟨200, .null⟩⟩ = .ok resp ∧
      resp.insert = some (⟨[actRec0], [⟨d0105, .num 70⟩]⟩ : FitbitInsert) ∧
      (Json.num 70 ≠ Json.null →
        resp.insert ≠ some (⟨[actRec0], [⟨d0105, .null⟩]⟩ : FitbitInsert))) :=
  ⟨(c9_weight_null_iff_no_entries d0110 d0105 ⟨state0105, fbSecrets⟩
      ⟨⟨200, activityBody⟩, ⟨200, weightEmptyBody⟩, ⟨200, .null⟩⟩ actRec0
      (.json (.str "A")) (.json (.str "R"))
      (by decide) (by decide) (by decide) (by decide) (by decide) (by decide)
      (by decide) (by decide) (by decide)).1 (by decide),
  (c9_weight_null_iff_no_entries d0110 d0105 ⟨state0105, fbSecrets⟩
      ⟨⟨200, activityBody⟩, ⟨200, weightOneBody⟩, ⟨200, .null⟩⟩ actRec0
      (.json (.str "A")) (.json (.str "R"))
      (by decide) (by decide) (by decide) (by decide) (by decide) (by decide)
      (by decide) (by decide) (by decide)).2
    (.obj (.cons "weight" (.num 70) (.cons "bmi" (.num 22) .nil))) .nil
    (.num 70) (by decide) (by decide)⟩
